import Mathlib

/-!
Verification of the read-only query admission and execution pipeline of
`fde_sql_mcp` (src/fde_sql_mcp/tools/databases.py, clients/sql.py, config.py).

The Python source is shallowly embedded: query text is `List Char` / `String`,
the regex-substitution passes of `_strip_sql_comments_and_literals` become
explicit scanners with the same match semantics, `_validate_readonly_query`
becomes a pure function returning a verdict, and `run_readonly_query_impl`
is modelled with an explicit database-event trace and an abstract engine
collaborator.  The embedding is restricted to ASCII text (the regexes in the
source only use ASCII character classes for tokens and keywords).
-/

/-- Whitespace characters recognised by the embedding, matching Python's
`str.strip()` / `\s` on ASCII text. -/
def isPySpace (c : Char) : Bool :=
  c == ' ' || c == '\t' || c == '\n' || c == '\r' || c == '\x0B' || c == '\x0C'

/-- ASCII word character, as in the source's `[A-Za-z0-9_]` classes. -/
def isWordChar (c : Char) : Bool :=
  c.isAlpha || c.isDigit || c == '_'

/-- ASCII token-start character, as in the source's `[A-Za-z_]` class. -/
def isTokenStart (c : Char) : Bool :=
  c.isAlpha || c == '_'

/-- Does the list contain the block-comment closer `*/`? (Lookahead used to
decide whether `/\*.*?\*/` can match from a given `/*`.) -/
def hasBlockClose : List Char → Bool
  | [] => false
  | '*' :: '/' :: _ => true
  | _ :: rest => hasBlockClose rest

/-- Scanner for `re.sub(r"/\*.*?\*/", " ", sql, flags=re.S)`: in the comment
state we drop characters up to the nearest `*/` (non-greedy); a `/*` with no
closer is left verbatim, as the regex then has no match there. -/
def removeBlockCommentsAux : Bool → List Char → List Char
  | true, '*' :: '/' :: rest => removeBlockCommentsAux false rest
  | true, _ :: rest => removeBlockCommentsAux true rest
  | true, [] => []
  | false, '/' :: '*' :: rest =>
    if hasBlockClose rest then ' ' :: removeBlockCommentsAux true rest
    else '/' :: '*' :: removeBlockCommentsAux false rest
  | false, c :: rest => c :: removeBlockCommentsAux false rest
  | false, [] => []

/-- First pass of `_strip_sql_comments_and_literals`. -/
def removeBlockComments (l : List Char) : List Char :=
  removeBlockCommentsAux false l

/-- Scanner for `re.sub(r"--[^\r\n]*", " ", ...)`: each `--` and everything up
to (excluding) the next CR/LF is replaced by one space. -/
def removeLineCommentsAux : Bool → List Char → List Char
  | true, c :: rest =>
    if c = '\r' ∨ c = '\n' then c :: removeLineCommentsAux false rest
    else removeLineCommentsAux true rest
  | true, [] => []
  | false, '-' :: '-' :: rest => ' ' :: removeLineCommentsAux true rest
  | false, c :: rest => c :: removeLineCommentsAux false rest
  | false, [] => []

/-- Second pass of `_strip_sql_comments_and_literals`. -/
def removeLineComments (l : List Char) : List Char :=
  removeLineCommentsAux false l

/-- Body scan for the string-literal regex `(?is)N?'(?:''|[^'])*'`, entered
just after the opening quote.  Returns the suffix after the whole match, or
`none` when no match completes from this opening quote.  Greedily consumes
doubled quotes and non-quote characters; a quote followed by a non-quote (or
end) closes the literal.  When the scan runs off the end of the input, the
regex engine backtracks to the last consumed `''` pair and closes the literal
at that pair's first quote, which is what the fallback branch implements. -/
def scanStringBody : List Char → Option (List Char)
  | [] => none
  | '\'' :: '\'' :: rest =>
    match scanStringBody rest with
    | some r => some r
    | none => some ('\'' :: rest)
  | '\'' :: rest => some rest
  | _ :: rest => scanStringBody rest

/-- Scanner for `re.sub(r"(?is)N?'(?:''|[^'])*'", " ", ...)`.  The fuel is the
input length; every step consumes at least one character per unit of fuel, so
the fuel never runs out on the initial call. -/
def removeStringsAux : Nat → List Char → List Char
  | 0, l => l
  | _ + 1, [] => []
  | fuel + 1, 'N' :: '\'' :: rest =>
    match scanStringBody rest with
    | some r => ' ' :: removeStringsAux fuel r
    | none => 'N' :: '\'' :: removeStringsAux fuel rest
  | fuel + 1, 'n' :: '\'' :: rest =>
    match scanStringBody rest with
    | some r => ' ' :: removeStringsAux fuel r
    | none => 'n' :: '\'' :: removeStringsAux fuel rest
  | fuel + 1, '\'' :: rest =>
    match scanStringBody rest with
    | some r => ' ' :: removeStringsAux fuel r
    | none => '\'' :: removeStringsAux fuel rest
  | fuel + 1, c :: rest => c :: removeStringsAux fuel rest

/-- Third pass of `_strip_sql_comments_and_literals`. -/
def removeStrings (l : List Char) : List Char :=
  removeStringsAux l.length l

/-- Does the list contain `]`? (Lookahead for `\[[^\]]*\]`.) -/
def hasRBracket : List Char → Bool
  | [] => false
  | ']' :: _ => true
  | _ :: rest => hasRBracket rest

/-- Scanner for `re.sub(r"\[[^\]]*\]", " ", ...)`: a `[` with a later `]` is
replaced, together with everything up to the nearest `]`, by one space; a `[`
with no closer is left verbatim. -/
def removeBracketsAux : Bool → List Char → List Char
  | true, ']' :: rest => removeBracketsAux false rest
  | true, _ :: rest => removeBracketsAux true rest
  | true, [] => []
  | false, '[' :: rest =>
    if hasRBracket rest then ' ' :: removeBracketsAux true rest
    else '[' :: removeBracketsAux false rest
  | false, c :: rest => c :: removeBracketsAux false rest
  | false, [] => []

/-- Fourth pass of `_strip_sql_comments_and_literals`. -/
def removeBrackets (l : List Char) : List Char :=
  removeBracketsAux false l

/-- Embedding of `_strip_sql_comments_and_literals` (databases.py:60-67):
block comments, then line comments, then single-quoted string literals, then
bracketed identifiers, each matched span replaced by a single space. -/
def stripSqlCommentsAndLiterals (l : List Char) : List Char :=
  removeBrackets (removeStrings (removeLineComments (removeBlockComments l)))

/-- Rejection reasons, the taxonomy raised as `ValueError`s by
`_validate_readonly_query` and `run_readonly_query_impl`'s validation step. -/
inductive Reason
  | empty
  | tooLong
  | wrongLeadingClause
  | multipleStatements
  | disallowedKeyword (token : String)
  | disallowedProcedureCall
deriving DecidableEq

/-- Outcome of validation. -/
inductive Verdict
  | admitted
  | rejected (r : Reason)
deriving DecidableEq

/-- The `_DISALLOWED_KEYWORDS` set from databases.py:26-57. -/
def DISALLOWED_KEYWORDS : List String :=
  ["add", "alter", "backup", "begin", "bulk", "commit", "create", "delete",
   "deny", "drop", "exec", "execute", "grant", "insert", "into", "merge",
   "openquery", "openrowset", "opendatasource", "reconfigure", "restore",
   "revoke", "rollback", "save", "set", "shutdown", "truncate", "update",
   "use", "dbcc"]

/-- Modelled from the spec: the `ExecutionPolicy` configuration record
(`sql_enforce_readonly` with default true, `sql_max_query_chars`,
`sql_max_rows`, `sql_query_timeout`).  databases.py reads these four values
from the process-wide `settings` object, but the `Settings` dataclass in
config.py does not declare any of them (see the field inventory below), so
the policy consumed by the query pipeline is embedded here as an explicit
record following the spec's configuration surface. -/
structure ExecutionPolicy where
  sql_enforce_readonly : Bool
  sql_max_query_chars : Nat
  sql_max_rows : Int
  sql_query_timeout : Nat
deriving DecidableEq

/-- Field names actually declared by the `Settings` dataclass
(config.py:109-134). -/
def settingsDeclaredFields : List String :=
  ["sql_server", "sql_server_port", "sql_database", "sql_driver",
   "sql_encrypt", "sql_trust_server_certificate", "sql_connection_timeout"]

/-- Settings attributes read by the query pipeline in databases.py
(`settings.sql_enforce_readonly`, `settings.sql_max_query_chars`,
`settings.sql_max_rows`, `settings.sql_query_timeout`). -/
def querySettingsFieldsUsed : List String :=
  ["sql_enforce_readonly", "sql_max_query_chars", "sql_max_rows",
   "sql_query_timeout"]

/-- Sample policy with readonly enforcement on, used for concrete runs. -/
def samplePolicy : ExecutionPolicy :=
  ⟨true, 10000, 100, 30⟩

/-- Case-insensitive match of a lowercase keyword against the front of the
text; returns the remaining text on success (used for `^(with|select)` under
`re.I`). -/
def matchKeywordCI : List Char → List Char → Option (List Char)
  | [], rest => some rest
  | _ :: _, [] => none
  | k :: ks, c :: cs =>
    if Char.toLower c = k then matchKeywordCI ks cs else none

/-- Word boundary `\b` after a keyword: next character absent or not a word
character. -/
def wordBoundaryOk : List Char → Bool
  | [] => true
  | c :: _ => !(isWordChar c)

/-- The leading-clause test `re.match(r"^\s*(with|select)\b", stripped,
flags=re.I)` from databases.py:83. -/
def leadingClauseOk (l : List Char) : Bool :=
  let t := l.dropWhile isPySpace
  (match matchKeywordCI ("with".data) t with
   | some rest => wordBoundaryOk rest
   | none => false) ||
  (match matchKeywordCI ("select".data) t with
   | some rest => wordBoundaryOk rest
   | none => false)

/-- Leading-whitespace trim (half of Python `str.strip()`). -/
def trimLeading (l : List Char) : List Char :=
  l.dropWhile isPySpace

/-- Trailing-whitespace trim (the other half of Python `str.strip()`). -/
def trimTrailing : List Char → List Char
  | [] => []
  | c :: rest =>
    match trimTrailing rest with
    | [] => if isPySpace c then [] else [c]
    | r => c :: r

/-- Python `str.strip()`: remove leading and trailing whitespace. -/
def pyStrip (l : List Char) : List Char :=
  trimTrailing (trimLeading l)

/-- Tokenizer for `re.findall(r"[A-Za-z_][A-Za-z0-9_]*", stripped)`: maximal
runs of word characters that start at a letter or underscore (a digit cannot
start a token).  The accumulator holds the current token reversed. -/
def tokenizeAux : List Char → List Char → List (List Char)
  | [], [] => []
  | acc@(_ :: _), [] => [acc.reverse]
  | [], c :: rest =>
    if isTokenStart c then tokenizeAux [c] rest else tokenizeAux [] rest
  | acc@(_ :: _), c :: rest =>
    if isWordChar c then tokenizeAux (c :: acc) rest
    else acc.reverse :: tokenizeAux [] rest

/-- Tokens of the sanitized text (databases.py:93). -/
def tokenize (l : List Char) : List (List Char) :=
  tokenizeAux [] l

/-- ASCII lowercasing of a token (`token.lower()`). -/
def lowerTok (t : List Char) : List Char :=
  t.map Char.toLower

/-- Characters of the procedure name guard `xp_`. -/
def xpChars : List Char :=
  ['x', 'p', '_']

/-- Characters of the procedure name guard `sp_`. -/
def spChars : List Char :=
  ['s', 'p', '_']

/-- Boolean list-prefix test (`str.startswith`). -/
def listStartsWith : List Char → List Char → Bool
  | [], _ => true
  | _ :: _, [] => false
  | p :: ps, c :: cs => p == c && listStartsWith ps cs

/-- The token loop of `_validate_readonly_query` (databases.py:94-103): for
each token in order, first the keyword denylist, then the `xp_`/`sp_`
procedure-call guard; the first offending token determines the reason. -/
def checkTokens : List (List Char) → Option Reason
  | [] => none
  | t :: ts =>
    if DISALLOWED_KEYWORDS.contains (String.mk (lowerTok t)) then
      some (Reason.disallowedKeyword (String.mk t))
    else if listStartsWith xpChars (lowerTok t) || listStartsWith spChars (lowerTok t) then
      some Reason.disallowedProcedureCall
    else checkTokens ts

/-- Embedding of `_validate_readonly_query` (databases.py:70-103), with the
process-wide settings passed as an explicit policy record. -/
def validateReadonlyQuery (policy : ExecutionPolicy) (query : String) : Verdict :=
  if policy.sql_enforce_readonly = false then Verdict.admitted
  else if query.data.all isPySpace then Verdict.rejected Reason.empty
  else if policy.sql_max_query_chars < query.length then Verdict.rejected Reason.tooLong
  else if leadingClauseOk (stripSqlCommentsAndLiterals query.data) = false then
    Verdict.rejected Reason.wrongLeadingClause
  else if (pyStrip (stripSqlCommentsAndLiterals query.data)).dropLast.contains (';') then
    Verdict.rejected Reason.multipleStatements
  else
    match checkTokens (tokenize (stripSqlCommentsAndLiterals query.data)) with
    | some r => Verdict.rejected r
    | none => Verdict.admitted

/-- The dynamic `max_rows` argument of `_normalize_max_rows`: Python's `None`,
a value `int(...)` converts to `n`, or a value on which `int(...)` raises
`TypeError`/`ValueError`. -/
inductive MaxRowsArg
  | noneArg
  | intArg (n : Int)
  | badArg
deriving DecidableEq

/-- Embedding of `_normalize_max_rows` (databases.py:106-115): `None`,
unconvertible, or non-positive values resolve to the configured ceiling,
anything else to `min(value, ceiling)`. -/
def normalizeMaxRows (policy : ExecutionPolicy) : MaxRowsArg → Int
  | MaxRowsArg.noneArg => policy.sql_max_rows
  | MaxRowsArg.badArg => policy.sql_max_rows
  | MaxRowsArg.intArg n =>
    if n ≤ 0 then policy.sql_max_rows else min n policy.sql_max_rows

/-- Observable database interactions of one `run_readonly_query_impl` call. -/
inductive DbEvent
  | connectionOpened (database : String)
  | statementExecuted (sql : String)
deriving DecidableEq

/-- Reply of the external engine collaborator for one executed batch: the
cursor description's column names and the fetched rows. -/
structure EngineReply (α : Type) where
  columns : List String
  rows : List (List α)

/-- The shaped result dictionary returned by `run_readonly_query_impl`. -/
structure ResultSet (α : Type) where
  rows : List (List (String × α))
  row_count : Nat
  row_limit : Int
  truncated : Bool

/-- Python `dict` insertion: a repeated key keeps its first position but takes
the latest value. -/
def pyDictInsert (d : List (String × α)) (k : String) (v : α) : List (String × α) :=
  if d.any (fun p => p.1 == k) then
    d.map (fun p => if p.1 == k then (k, v) else p)
  else d ++ [(k, v)]

/-- Python `dict(zip(columns, row))`. -/
def pyDictZip (cols : List String) (row : List α) : List (String × α) :=
  (List.zip cols row).foldl (fun d p => pyDictInsert d p.1 p.2) []

/-- Embedding of `run_readonly_query_impl` (databases.py:118-139): validate
(raising stops everything), resolve the row limit, open a scoped connection,
execute the guard-prefixed batch, and shape the result.  The second component
is the trace of database interactions; a rejected query produces an empty
trace. -/
def runReadonlyQueryImpl (policy : ExecutionPolicy) (database : String)
    (query : String) (maxRows : MaxRowsArg) (engine : String → EngineReply α) :
    Except Reason (ResultSet α) × List DbEvent :=
  match validateReadonlyQuery policy query with
  | Verdict.rejected r => (Except.error r, [])
  | Verdict.admitted =>
    let limit := normalizeMaxRows policy maxRows
    let batch := "SET NOCOUNT ON; SET ROWCOUNT " ++ toString limit ++ "; " ++ query
    let reply := engine batch
    (Except.ok
      ⟨reply.rows.map (fun row => pyDictZip reply.columns row),
       reply.rows.length,
       limit,
       decide (limit ≤ (reply.rows.length : Int))⟩,
     [DbEvent.connectionOpened database, DbEvent.statementExecuted batch])

/-- Outcome of a Python block: a normal value or a raised exception. -/
inductive PyOutcome (α : Type)
  | ok (a : α)
  | err (msg : String)
deriving DecidableEq

/-- Resource event of the scoped-connection helper. -/
inductive ConnEvent
  | closeCalled
deriving DecidableEq

/-- The `try: conn.close() except Exception: pass` step of
`SQLServerConnection.get_connection` (sql.py:79-83): close is invoked and any
exception it raises is swallowed. -/
def closeQuietly (closeResult : PyOutcome Unit) : PyOutcome Unit × List ConnEvent :=
  match closeResult with
  | PyOutcome.ok _ => (PyOutcome.ok (), [ConnEvent.closeCalled])
  | PyOutcome.err _ => (PyOutcome.ok (), [ConnEvent.closeCalled])

/-- Python `try ... finally` semantics: the finally block always runs, and an
exception raised by it replaces the body's outcome. -/
def tryFinallySem (body : PyOutcome α) (cleanup : PyOutcome Unit) : PyOutcome α :=
  match cleanup with
  | PyOutcome.err e => PyOutcome.err e
  | PyOutcome.ok _ => body

/-- Embedding of the `with`-block exit of `SQLServerConnection.get_connection`
(sql.py:74-83): the body's outcome (normal or raised) passes through a
`finally` whose close call is wrapped in `except: pass`.  `closeResult` is
whatever `conn.close()` would do; the trace records that close ran. -/
def getConnectionScoped (body : PyOutcome α) (closeResult : PyOutcome Unit) :
    PyOutcome α × List ConnEvent :=
  let cleanup := closeQuietly closeResult
  (tryFinallySem body cleanup.1, cleanup.2)

/-- States of the reference single-pass SQL lexer. -/
inductive LexState
  | normal
  | lineComment
  | blockComment
  | inString
  | inBracket

/-- Modelled from the spec: the database engine's lexical view of a query, the
single-pass scanning state machine the spec describes (states: normal,
in-line-comment, in-block-comment, in-string, in-bracket), with each comment,
string literal (with `''` escaping), or bracketed identifier replaced by one
space.  Unlike the validator's regex pipeline, it never treats `--` inside a
string literal as a comment.  Used to state the no-false-negatives claim. -/
def engineLexStripAux : LexState → List Char → List Char
  | LexState.normal, [] => []
  | LexState.normal, '-' :: '-' :: rest => ' ' :: engineLexStripAux LexState.lineComment rest
  | LexState.normal, '/' :: '*' :: rest => ' ' :: engineLexStripAux LexState.blockComment rest
  | LexState.normal, '\'' :: rest => ' ' :: engineLexStripAux LexState.inString rest
  | LexState.normal, '[' :: rest => ' ' :: engineLexStripAux LexState.inBracket rest
  | LexState.normal, c :: rest => c :: engineLexStripAux LexState.normal rest
  | LexState.lineComment, [] => []
  | LexState.lineComment, c :: rest =>
    if c = '\r' ∨ c = '\n' then c :: engineLexStripAux LexState.normal rest
    else engineLexStripAux LexState.lineComment rest
  | LexState.blockComment, [] => []
  | LexState.blockComment, '*' :: '/' :: rest => engineLexStripAux LexState.normal rest
  | LexState.blockComment, _ :: rest => engineLexStripAux LexState.blockComment rest
  | LexState.inString, [] => []
  | LexState.inString, '\'' :: '\'' :: rest => engineLexStripAux LexState.inString rest
  | LexState.inString, '\'' :: rest => engineLexStripAux LexState.normal rest
  | LexState.inString, _ :: rest => engineLexStripAux LexState.inString rest
  | LexState.inBracket, [] => []
  | LexState.inBracket, ']' :: rest => engineLexStripAux LexState.normal rest
  | LexState.inBracket, _ :: rest => engineLexStripAux LexState.inBracket rest

/-- The engine's lexical stripping of a query (see `engineLexStripAux`). -/
def engineLexStrip (l : List Char) : List Char :=
  engineLexStripAux LexState.normal l

/-- A concrete engine collaborator returning one row, for witnesses. -/
def sampleEngine : String → EngineReply Nat :=
  fun _ => ⟨["x"], [[7]]⟩

theorem checkTokens_ne_multi : ∀ ts : List (List Char),
    checkTokens ts ≠ some Reason.multipleStatements := by
  intro ts
  induction ts with
  | nil => simp [checkTokens]
  | cons a ts ih =>
    unfold checkTokens
    split
    · simp
    · split
      · simp
      · exact ih

theorem checkTokens_none_sound : ∀ ts : List (List Char), checkTokens ts = none →
    ∀ t ∈ ts, DISALLOWED_KEYWORDS.contains (String.mk (lowerTok t)) = false ∧
      listStartsWith xpChars (lowerTok t) = false ∧
      listStartsWith spChars (lowerTok t) = false := by
  intro ts
  induction ts with
  | nil => intro _ t ht; cases ht
  | cons a ts ih =>
    intro h t ht
    unfold checkTokens at h
    split at h
    · cases h
    · split at h
      · cases h
      · rename_i hk hp
        cases ht with
        | head =>
          refine ⟨by simpa using hk, ?_, ?_⟩
          · have := by simpa using hp
            exact this.1
          · have := by simpa using hp
            exact this.2
        | tail _ htl => exact ih h t htl

theorem checkTokens_first_keyword : ∀ (ts1 : List (List Char)) (t : List Char)
    (ts2 : List (List Char)),
    DISALLOWED_KEYWORDS.contains (String.mk (lowerTok t)) = true →
    (∀ u ∈ ts1, DISALLOWED_KEYWORDS.contains (String.mk (lowerTok u)) = false ∧
      (listStartsWith xpChars (lowerTok u) || listStartsWith spChars (lowerTok u)) = false) →
    checkTokens (ts1 ++ t :: ts2) = some (Reason.disallowedKeyword (String.mk t)) := by
  intro ts1
  induction ts1 with
  | nil =>
    intro t ts2 hk _
    rw [List.nil_append]
    unfold checkTokens
    rw [if_pos hk]
  | cons a ts1 ih =>
    intro t ts2 hk hclean
    have ha := hclean a (List.mem_cons_self a ts1)
    rw [List.cons_append]
    unfold checkTokens
    rw [if_neg (by rw [ha.1]; exact Bool.false_ne_true),
        if_neg (by rw [ha.2]; exact Bool.false_ne_true)]
    exact ih t ts2 hk (fun u hu => hclean u (List.mem_cons_of_mem a hu))

theorem checkTokens_first_proc : ∀ (ts1 : List (List Char)) (t : List Char)
    (ts2 : List (List Char)),
    DISALLOWED_KEYWORDS.contains (String.mk (lowerTok t)) = false →
    (listStartsWith xpChars (lowerTok t) || listStartsWith spChars (lowerTok t)) = true →
    (∀ u ∈ ts1, DISALLOWED_KEYWORDS.contains (String.mk (lowerTok u)) = false ∧
      (listStartsWith xpChars (lowerTok u) || listStartsWith spChars (lowerTok u)) = false) →
    checkTokens (ts1 ++ t :: ts2) = some Reason.disallowedProcedureCall := by
  intro ts1
  induction ts1 with
  | nil =>
    intro t ts2 hnk hp _
    rw [List.nil_append]
    unfold checkTokens
    rw [if_neg (by rw [hnk]; exact Bool.false_ne_true), if_pos hp]
  | cons a ts1 ih =>
    intro t ts2 hnk hp hclean
    have ha := hclean a (List.mem_cons_self a ts1)
    rw [List.cons_append]
    unfold checkTokens
    rw [if_neg (by rw [ha.1]; exact Bool.false_ne_true),
        if_neg (by rw [ha.2]; exact Bool.false_ne_true)]
    exact ih t ts2 hnk hp (fun u hu => hclean u (List.mem_cons_of_mem a hu))

theorem validate_token_phase (policy : ExecutionPolicy) (q : String)
    (henf : policy.sql_enforce_readonly = true)
    (hne : q.data.all isPySpace = false)
    (hlen : q.length ≤ policy.sql_max_query_chars)
    (hlead : leadingClauseOk (stripSqlCommentsAndLiterals q.data) = true)
    (hsemi : (pyStrip (stripSqlCommentsAndLiterals q.data)).dropLast.contains (';') = false) :
    validateReadonlyQuery policy q =
      match checkTokens (tokenize (stripSqlCommentsAndLiterals q.data)) with
      | some r => Verdict.rejected r
      | none => Verdict.admitted := by
  have hsemi' : (';') ∉ (pyStrip (stripSqlCommentsAndLiterals q.data)).dropLast := by
    simpa using hsemi
  simp [validateReadonlyQuery, henf, hne, hlead, hsemi', Nat.not_lt.mpr hlen]

theorem validate_semi_phase (policy : ExecutionPolicy) (q : String)
    (henf : policy.sql_enforce_readonly = true)
    (hne : q.data.all isPySpace = false)
    (hlen : q.length ≤ policy.sql_max_query_chars)
    (hlead : leadingClauseOk (stripSqlCommentsAndLiterals q.data) = true) :
    validateReadonlyQuery policy q =
      if (pyStrip (stripSqlCommentsAndLiterals q.data)).dropLast.contains (';') then
        Verdict.rejected Reason.multipleStatements
      else
        match checkTokens (tokenize (stripSqlCommentsAndLiterals q.data)) with
        | some r => Verdict.rejected r
        | none => Verdict.admitted := by
  simp [validateReadonlyQuery, henf, hne, hlead, Nat.not_lt.mpr hlen]

theorem trimTrailing_cons (c : Char) (l : List Char) :
    trimTrailing (c :: l) =
      match trimTrailing l with
      | [] => if isPySpace c then [] else [c]
      | r => c :: r := rfl

theorem semi_pyStrip_iff_trimTrailing : ∀ l : List Char,
    (';') ∈ (pyStrip l).dropLast ↔ (';') ∈ (trimTrailing l).dropLast := by
  intro l
  induction l with
  | nil => exact Iff.rfl
  | cons c l ih =>
    by_cases hc : isPySpace c = true
    · have h1 : pyStrip (c :: l) = pyStrip l := by
        simp [pyStrip, trimLeading, List.dropWhile, hc]
      have hcs : (';') ≠ c := by
        intro h
        rw [← h] at hc
        simp [isPySpace] at hc
      rw [h1, ih, trimTrailing_cons]
      cases hr : trimTrailing l with
      | nil =>
        simp [hc]
      | cons x xs =>
        show (';') ∈ (x :: xs).dropLast ↔ (';') ∈ (c :: x :: xs).dropLast
        rw [show (c :: x :: xs).dropLast = c :: (x :: xs).dropLast from rfl]
        simp [List.mem_cons, hcs]
    · have h1 : pyStrip (c :: l) = trimTrailing (c :: l) := by
        simp [pyStrip, trimLeading, List.dropWhile, hc]
      rw [h1]

/-- Claim C1, counterexample: the query `SELECT '--'; DROP TABLE t` is
admitted by validation, yet as the database engine would lex it (string
literals respected, so the `--` inside the literal is not a comment) it
contains a semicolon before its final character and the denylisted keyword
`drop` outside of comments, string literals, and bracketed identifiers: a
multi-statement injection that passes validation.  The validator misses it
because its regex pipeline removes line comments before string literals, so
`--'; DROP TABLE t` is deleted as a comment before the keyword scan. -/
theorem readonly_validator_engine_false_negative :
    validateReadonlyQuery samplePolicy "SELECT '--'; DROP TABLE t" = Verdict.admitted ∧
    (pyStrip (engineLexStrip ("SELECT '--'; DROP TABLE t").data)).dropLast.contains (';') = true ∧
    ((tokenize (engineLexStrip ("SELECT '--'; DROP TABLE t").data)).map
      (fun t => String.mk (lowerTok t))).contains "drop" = true ∧
    DISALLOWED_KEYWORDS.contains "drop" = true :=
  ⟨by decide, by decide, by decide, by decide⟩

/-- Claim C1, amended: every query admitted with readonly enforcement on is
clean relative to the validator's own sanitized form of the text — no token
of the sanitized text is a denylisted keyword or carries an `xp_`/`sp_`
prefix, and after `strip()` the sanitized text has no semicolon before its
final character. -/
theorem admitted_query_sanitized_surface_clean (policy : ExecutionPolicy) (q : String)
    (henf : policy.sql_enforce_readonly = true)
    (hadm : validateReadonlyQuery policy q = Verdict.admitted) :
    (∀ t ∈ tokenize (stripSqlCommentsAndLiterals q.data),
      DISALLOWED_KEYWORDS.contains (String.mk (lowerTok t)) = false ∧
      listStartsWith xpChars (lowerTok t) = false ∧
      listStartsWith spChars (lowerTok t) = false) ∧
    (';') ∉ (pyStrip (stripSqlCommentsAndLiterals q.data)).dropLast := by
  by_cases h1 : q.data.all isPySpace = true
  · simp [validateReadonlyQuery, henf, h1] at hadm
  by_cases h2 : policy.sql_max_query_chars < q.length
  · simp [validateReadonlyQuery, henf, h1, h2] at hadm
  by_cases h3 : leadingClauseOk (stripSqlCommentsAndLiterals q.data) = false
  · simp [validateReadonlyQuery, henf, h1, h2, h3] at hadm
  by_cases h4 : (';') ∈ (pyStrip (stripSqlCommentsAndLiterals q.data)).dropLast
  · simp [validateReadonlyQuery, henf, h1, h2, h3, h4] at hadm
  refine ⟨?_, h4⟩
  rw [validate_token_phase policy q henf (by simpa using h1) (Nat.not_lt.mp h2)
    (by simpa using h3) (by simpa using h4)] at hadm
  cases hck : checkTokens (tokenize (stripSqlCommentsAndLiterals q.data)) with
  | some r => rw [hck] at hadm; cases hadm
  | none => exact checkTokens_none_sound _ hck

/-- Claim C1, amended, witness at `SELECT 1`. -/
theorem admitted_query_sanitized_surface_clean_witness :
    (';') ∉ (pyStrip (stripSqlCommentsAndLiterals ("SELECT 1").data)).dropLast :=
  (admitted_query_sanitized_surface_clean samplePolicy "SELECT 1" rfl (by decide)).2

/-- Claim C2: the `Settings` dataclass declares none of the four
configuration fields the query pipeline reads (`sql_enforce_readonly`,
`sql_max_query_chars`, `sql_max_rows`, `sql_query_timeout`), so every field
the claim attributes to the process-wide configuration is missing from it. -/
theorem settings_missing_query_pipeline_fields :
    querySettingsFieldsUsed.all (fun f => !(settingsDeclaredFields.contains f)) = true := by
  decide

/-- Claim C3: when validation rejects a query, the run operation returns that
validation error with an empty database-event trace (no connection opened, no
statement executed), and a ResultSet is produced only when validation
admitted the query. -/
theorem rejection_precedes_database_contact {α : Type} (policy : ExecutionPolicy)
    (database query : String) (maxRows : MaxRowsArg) (engine : String → EngineReply α) :
    (∀ r, validateReadonlyQuery policy query = Verdict.rejected r →
      runReadonlyQueryImpl policy database query maxRows engine = (Except.error r, [])) ∧
    (∀ rs evs, runReadonlyQueryImpl policy database query maxRows engine = (Except.ok rs, evs) →
      validateReadonlyQuery policy query = Verdict.admitted) := by
  constructor
  · intro r h
    simp [runReadonlyQueryImpl, h]
  · intro rs evs h
    cases hv : validateReadonlyQuery policy query with
    | admitted => rfl
    | rejected r => simp [runReadonlyQueryImpl, hv] at h

/-- Claim C3, witness: a rejected query produces the error and no events. -/
theorem rejection_precedes_database_contact_witness :
    runReadonlyQueryImpl samplePolicy "master" "DELETE FROM t" MaxRowsArg.noneArg sampleEngine =
      (Except.error Reason.wrongLeadingClause, []) :=
  (rejection_precedes_database_contact samplePolicy "master" "DELETE FROM t"
    MaxRowsArg.noneArg sampleEngine).1 Reason.wrongLeadingClause (by decide)

/-- Claim C4: once the non-empty, length, and leading-clause checks have
passed with enforcement on, the verdict is Rejected(multiple-statements)
exactly when the sanitized text, after trimming trailing whitespace, has a
semicolon somewhere before its single final character; a lone trailing
semicolon is tolerated. -/
theorem semicolon_multiple_statements_iff (policy : ExecutionPolicy) (q : String)
    (henf : policy.sql_enforce_readonly = true)
    (hne : q.data.all isPySpace = false)
    (hlen : q.length ≤ policy.sql_max_query_chars)
    (hlead : leadingClauseOk (stripSqlCommentsAndLiterals q.data) = true) :
    validateReadonlyQuery policy q = Verdict.rejected Reason.multipleStatements ↔
      (';') ∈ (trimTrailing (stripSqlCommentsAndLiterals q.data)).dropLast := by
  rw [validate_semi_phase policy q henf hne hlen hlead, ← semi_pyStrip_iff_trimTrailing]
  by_cases h : (';') ∈ (pyStrip (stripSqlCommentsAndLiterals q.data)).dropLast
  · rw [if_pos (by simpa using h)]
    simp [h]
  · rw [if_neg (by simpa using h)]
    constructor
    · intro hmatch
      cases hck : checkTokens (tokenize (stripSqlCommentsAndLiterals q.data)) with
      | some r =>
        rw [hck] at hmatch
        exact absurd (hck.trans (by simpa using hmatch)) (checkTokens_ne_multi _)
      | none => rw [hck] at hmatch; cases hmatch
    · intro hmem
      exact absurd hmem h

/-- Claim C4, witness at `SELECT * FROM t; DROP TABLE t`. -/
theorem semicolon_multiple_statements_iff_witness :
    validateReadonlyQuery samplePolicy "SELECT * FROM t; DROP TABLE t" =
      Verdict.rejected Reason.multipleStatements :=
  (semicolon_multiple_statements_iff samplePolicy "SELECT * FROM t; DROP TABLE t"
    rfl (by decide) (by decide) (by decide)).mpr (by decide)

/-- Claim C5: with enforcement on, a non-empty query within the length bound
whose sanitized text does not begin (after leading whitespace) with the
case-insensitive word `with` or `select` is rejected with
wrong-leading-clause. -/
theorem non_select_leading_clause_rejected (policy : ExecutionPolicy) (q : String)
    (henf : policy.sql_enforce_readonly = true)
    (hne : q.data.all isPySpace = false)
    (hlen : q.length ≤ policy.sql_max_query_chars)
    (hlead : leadingClauseOk (stripSqlCommentsAndLiterals q.data) = false) :
    validateReadonlyQuery policy q = Verdict.rejected Reason.wrongLeadingClause := by
  simp [validateReadonlyQuery, henf, hne, hlead, Nat.not_lt.mpr hlen]

/-- Claim C5, witness at `DELETE FROM t`. -/
theorem non_select_leading_clause_rejected_witness :
    validateReadonlyQuery samplePolicy "DELETE FROM t" =
      Verdict.rejected Reason.wrongLeadingClause :=
  non_select_leading_clause_rejected samplePolicy "DELETE FROM t"
    rfl (by decide) (by decide) (by decide)

/-- Claim C6: an absent, unconvertible, or non-positive requested row cap
resolves to the configured ceiling; a positive request resolves to the
minimum of the request and the ceiling; the resolver is total and, given a
positive ceiling, always returns a positive integer. -/
theorem normalize_max_rows_spec (policy : ExecutionPolicy)
    (hpos : 0 < policy.sql_max_rows) :
    normalizeMaxRows policy MaxRowsArg.noneArg = policy.sql_max_rows ∧
    normalizeMaxRows policy MaxRowsArg.badArg = policy.sql_max_rows ∧
    (∀ n : Int, n ≤ 0 → normalizeMaxRows policy (MaxRowsArg.intArg n) = policy.sql_max_rows) ∧
    (∀ n : Int, 0 < n →
      normalizeMaxRows policy (MaxRowsArg.intArg n) = min n policy.sql_max_rows) ∧
    (∀ a : MaxRowsArg, 0 < normalizeMaxRows policy a) := by
  refine ⟨rfl, rfl, ?_, ?_, ?_⟩
  · intro n hn
    simp only [normalizeMaxRows]
    rw [if_pos hn]
  · intro n hn
    simp only [normalizeMaxRows]
    rw [if_neg (by omega)]
  · intro a
    cases a with
    | noneArg => exact hpos
    | badArg => exact hpos
    | intArg n =>
      simp only [normalizeMaxRows]
      split
      · exact hpos
      · rename_i hn
        exact lt_min_iff.mpr ⟨by omega, hpos⟩

/-- Claim C6, witness at the sample policy. -/
theorem normalize_max_rows_spec_witness :
    normalizeMaxRows samplePolicy MaxRowsArg.noneArg = samplePolicy.sql_max_rows :=
  (normalize_max_rows_spec samplePolicy (by decide)).1

/-- Claim C7: whenever the engine honours the server-side row cap (the
returned row count does not exceed the resolved limit), the truncated flag of
the execution result is true exactly when row_count equals row_limit.  The
code computes `truncated = (row_count >= row_limit)`, which coincides with
equality under the cap. -/
theorem truncated_iff_row_count_eq_limit {α : Type} (policy : ExecutionPolicy)
    (database query : String) (maxRows : MaxRowsArg) (engine : String → EngineReply α)
    (rs : ResultSet α) (evs : List DbEvent)
    (hrun : runReadonlyQueryImpl policy database query maxRows engine = (Except.ok rs, evs))
    (hcap : (rs.row_count : Int) ≤ rs.row_limit) :
    rs.truncated = true ↔ (rs.row_count : Int) = rs.row_limit := by
  cases hv : validateReadonlyQuery policy query with
  | rejected r => simp [runReadonlyQueryImpl, hv] at hrun
  | admitted =>
    simp only [runReadonlyQueryImpl, hv, Prod.mk.injEq, Except.ok.injEq] at hrun
    obtain ⟨h1, _⟩ := hrun
    subst h1
    simp only at hcap ⊢
    rw [decide_eq_true_eq]
    omega

/-- Claim C7, witness: a one-row reply at limit 1 is truncated and has
row_count equal to row_limit. -/
theorem truncated_iff_row_count_eq_limit_witness :
    ((⟨[[("x", 7)]], 1, 1, true⟩ : ResultSet Nat).truncated = true ↔
      (((⟨[[("x", 7)]], 1, 1, true⟩ : ResultSet Nat).row_count : Int) =
        (⟨[[("x", 7)]], 1, 1, true⟩ : ResultSet Nat).row_limit)) :=
  truncated_iff_row_count_eq_limit samplePolicy "master" "SELECT 1" (MaxRowsArg.intArg 1)
    sampleEngine ⟨[[("x", 7)]], 1, 1, true⟩
    [DbEvent.connectionOpened "master",
     DbEvent.statementExecuted "SET NOCOUNT ON; SET ROWCOUNT 1; SELECT 1"]
    rfl (by decide)

/-- Claim C8: the sanitizer is the exact composition, in order, of the
block-comment, line-comment, string-literal, and bracket passes, each
replacing matched spans by one space; consequently keywords hidden inside a
string literal or a bracketed identifier are invisible to validation, so
`SELECT 'please update this'` and `SELECT [update] FROM t` are admitted. -/
theorem sanitizer_pass_order_and_literal_hiding :
    (∀ s : List Char, stripSqlCommentsAndLiterals s =
      removeBrackets (removeStrings (removeLineComments (removeBlockComments s)))) ∧
    validateReadonlyQuery samplePolicy "SELECT 'please update this'" = Verdict.admitted ∧
    validateReadonlyQuery samplePolicy "SELECT [update] FROM t" = Verdict.admitted :=
  ⟨fun _ => rfl, by decide, by decide⟩

/-- Claim C9, counterexample: `select sp_who update` has both a denylisted
keyword token (`update`) and an `sp_`-prefixed token (`sp_who`) in its
sanitized token list, yet the verdict is Rejected(disallowed-procedure-call),
not Rejected(disallowed-keyword): the code checks both conditions per token
while scanning left to right, so the earlier `sp_who` wins, contradicting
the claim that the keyword denylist pass runs over all tokens first. -/
theorem keyword_and_procedure_order_counterexample :
    validateReadonlyQuery samplePolicy "select sp_who update" =
      Verdict.rejected Reason.disallowedProcedureCall ∧
    (tokenize (stripSqlCommentsAndLiterals ("select sp_who update").data)).contains
      ("sp_who".data) = true ∧
    (tokenize (stripSqlCommentsAndLiterals ("select sp_who update").data)).contains
      ("update".data) = true ∧
    DISALLOWED_KEYWORDS.contains "update" = true ∧
    listStartsWith spChars (lowerTok ("sp_who".data)) = true := by
  refine ⟨by decide, by decide, by decide, by decide, by decide⟩

/-- Claim C9, amended: validation scans the sanitized token list left to
right checking, for each token, the keyword denylist before the `xp_`/`sp_`
guard; the first offending token decides the reason.  For any split of the
token list whose prefix tokens are all clean (neither denylisted nor
`xp_`/`sp_`-prefixed), the verdict at the first offending token `t` is
Rejected(disallowed-keyword t) when `t` is denylisted, and
Rejected(disallowed-procedure-call) when `t` is not denylisted but carries
an `xp_`/`sp_` prefix. -/
theorem first_offending_token_decides_reason (policy : ExecutionPolicy) (q : String)
    (ts1 : List (List Char)) (t : List Char) (ts2 : List (List Char))
    (henf : policy.sql_enforce_readonly = true)
    (hne : q.data.all isPySpace = false)
    (hlen : q.length ≤ policy.sql_max_query_chars)
    (hlead : leadingClauseOk (stripSqlCommentsAndLiterals q.data) = true)
    (hsemi : (pyStrip (stripSqlCommentsAndLiterals q.data)).dropLast.contains (';') = false)
    (hts : tokenize (stripSqlCommentsAndLiterals q.data) = ts1 ++ t :: ts2)
    (hclean : ∀ u ∈ ts1, DISALLOWED_KEYWORDS.contains (String.mk (lowerTok u)) = false ∧
      (listStartsWith xpChars (lowerTok u) || listStartsWith spChars (lowerTok u)) = false) :
    (DISALLOWED_KEYWORDS.contains (String.mk (lowerTok t)) = true →
      validateReadonlyQuery policy q =
        Verdict.rejected (Reason.disallowedKeyword (String.mk t))) ∧
    (DISALLOWED_KEYWORDS.contains (String.mk (lowerTok t)) = false →
      (listStartsWith xpChars (lowerTok t) || listStartsWith spChars (lowerTok t)) = true →
      validateReadonlyQuery policy q =
        Verdict.rejected Reason.disallowedProcedureCall) := by
  constructor
  · intro hkw
    rw [validate_token_phase policy q henf hne hlen hlead hsemi, hts,
      checkTokens_first_keyword ts1 t ts2 hkw hclean]
  · intro hnk hp
    rw [validate_token_phase policy q henf hne hlen hlead hsemi, hts,
      checkTokens_first_proc ts1 t ts2 hnk hp hclean]

/-- Claim C9, amended, witness: the keyword branch at `select update sp_who`
(first offending token denylisted) and the procedure-call branch at
`select sp_who update` (first offending token `sp_`-prefixed only). -/
theorem first_offending_token_decides_reason_witness :
    (validateReadonlyQuery samplePolicy "select update sp_who" =
      Verdict.rejected (Reason.disallowedKeyword (String.mk ("update".data)))) ∧
    (validateReadonlyQuery samplePolicy "select sp_who update" =
      Verdict.rejected Reason.disallowedProcedureCall) :=
  ⟨(first_offending_token_decides_reason samplePolicy "select update sp_who"
      [("select".data)] ("update".data) [("sp_who".data)]
      rfl (by decide) (by decide) (by decide) (by decide) (by decide) (by decide)).1
      (by decide),
   (first_offending_token_decides_reason samplePolicy "select sp_who update"
      [("select".data)] ("sp_who".data) [("update".data)]
      rfl (by decide) (by decide) (by decide) (by decide) (by decide) (by decide)).2
      (by decide) (by decide)⟩

/-- Claim C10: the scoped-connection helper runs the body, then always calls
close in a finally block whose own failure is swallowed by `except: pass`, so
the overall outcome is exactly the body's outcome (normal value or original
exception) on every path, and the close call happens on every path. -/
theorem scoped_connection_closes_and_suppresses {α : Type} :
    ∀ (body : PyOutcome α) (closeResult : PyOutcome Unit),
      getConnectionScoped body closeResult = (body, [ConnEvent.closeCalled]) := by
  intro body closeResult
  cases closeResult <;> rfl
